import Mathlib

/-!
Shallow embedding of the time-mcp tool server (src/src/index.ts).

The server exposes six date/time tools over an MCP dispatcher.  The date
library (dayjs with the utc/timezone/week plugins) is an external
collaborator: it is modelled as an explicit environment record DayjsEnv
whose fields are the library calls the source makes (parse a string as
UTC to epoch milliseconds, the current instant, the UTC offset of a zone
at an instant, formatting, and so on).  All logic of the repository
itself - argument validation, the dispatcher switch, the timezone
conversion routine convertTime and the difference formatter
formatTimeDifference - is translated directly from the source.

JavaScript untyped argument objects are modelled by the inductive JSVal;
a thrown exception is modelled by the error case of Except, and the
catch-all of the dispatcher by the match in handleTool.
-/

/-- Model of a JavaScript value as far as the argument validators of the
source inspect one: undefined, null, string, number, boolean, or an
object given as a list of key/value fields. -/
inductive JSVal where
  | undef
  | null
  | str (s : String)
  | num (n : Int)
  | boolVal (b : Bool)
  | obj (fields : List (String × JSVal))

/-- First-match field lookup in an object field list (runtime JS objects
have unique keys, so first match is the JS semantics). -/
def lookupPairs : List (String × JSVal) → String → Option JSVal
  | [], _ => none
  | (k, v) :: rest, key => if k = key then some v else lookupPairs rest key

/-- Property access / membership on a JSVal. -/
def JSVal.lookupField : JSVal → String → Option JSVal
  | .obj fs, k => lookupPairs fs k
  | _, _ => none

/-- JS test: typeof args === that of an object and args is not null. -/
def JSVal.isObjectNonNull : JSVal → Bool
  | .obj _ => true
  | _ => false

/-- JS membership test (the in operator) on an object value. -/
def hasField (v : JSVal) (k : String) : Bool :=
  (v.lookupField k).isSome

/-- JS test: the key is present and typeof value === that of a string. -/
def isStringField (v : JSVal) (k : String) : Bool :=
  match v.lookupField k with
  | some (.str _) => true
  | _ => false

/-- Extraction of a string-valued field (used by the dispatcher after
validation; absent or non-string fields give none, matching a JS
destructuring that yields undefined). -/
def getStrField (v : JSVal) (k : String) : Option String :=
  match v.lookupField k with
  | some (.str s) => some s
  | _ => none

/-- JS property access base.time as an expression: it throws a
TypeError when the base is undefined or null (message text as produced
by the Node runtime), and otherwise yields the property value, none for
an absent or non-string field.  The source needs this only at
index.ts:95, const time = args.time, because checkTimestampArgs is the
one validator that admits undefined and null arguments. -/
def jsGetTimeProp (base : JSVal) : Except String (Option String) :=
  match base with
  | .undef => .error "Cannot read properties of undefined (reading \x27time\x27)"
  | .null => .error "Cannot read properties of null (reading \x27time\x27)"
  | _ => .ok (getStrField base "time")

/-- The success/failure envelope the dispatcher returns.  Every branch of
the source handler returns success plus a single text content item, so
the content array is flattened to its one text field. -/
structure ToolResult where
  success : Bool
  text : String
deriving DecidableEq

/-- Result record of convertTime (source lines 255-311). -/
structure ConvertResult where
  sourceTime : String
  targetTime : String
  timeDiff : String
deriving DecidableEq

/-- Abstract model of the dayjs library calls the source makes.  Each
field is one library behaviour; error cases of Except model thrown
exceptions, none models an invalid parse (an invalid dayjs object). -/
structure DayjsEnv where
  /-- dayjs.utc(s).valueOf -- parse a string as UTC; none when the parse
  gives an invalid date. -/
  parseUTC : String → Option Int
  /-- dayjs().valueOf / dayjs.utc().valueOf -- the current instant in
  epoch milliseconds. -/
  nowMs : Int
  /-- utcOffset of a zone-converted time: the UTC offset in minutes of
  the zone at the given instant; none when the zone identifier is
  invalid (the real library signals this by throwing from tz, which the
  source catches together with its own isValid check). -/
  zoneOffset : String → Int → Option Int
  /-- Formatting an instant in a zone with pattern YYYY-MM-DD HH:mm:ss. -/
  formatZone : String → Int → String
  /-- dayjs.tz.guess -- the host system zone. -/
  guessZone : String
  /-- dayjs.utc().format(pattern). -/
  formatUTCNow : String → String
  /-- dayjs().tz(zone).format(pattern); error when the zone is invalid. -/
  formatNowInZone : String → String → Except String String
  /-- dayjs(time).fromNow -- humanized offset string. -/
  fromNow : String → String
  /-- dayjs().daysInMonth -- days in the current month. -/
  daysInMonthToday : Int
  /-- dayjs(date).daysInMonth. -/
  daysInMonthOfDate : String → Int
  /-- dayjs().week -- standard week number of the current date. -/
  weekToday : Int
  /-- dayjs(date).week. -/
  weekOfDate : String → Int
  /-- dayjs().isoWeek. -/
  isoWeekToday : Int
  /-- dayjs(date).isoWeek. -/
  isoWeekOfDate : String → Int

/-- JS whitespace test for the characters String.prototype.trim strips
(the common ASCII subset). -/
def isJsWs (c : Char) : Bool :=
  c = ' ' || c = '\t' || c = '\n' || c = '\r'

/-- Executable model of JS String.prototype.trim: strip whitespace from
both ends. -/
def jsTrim (s : String) : String :=
  ⟨((s.data.dropWhile isJsWs).reverse.dropWhile isJsWs).reverse⟩

/-- Source function formatTimeDifference (index.ts lines 214-226):
absolute minutes split into whole hours and a minute remainder, a sign
chosen by the test minutes < 0, plural s suffix whenever the component
is not exactly 1, and the minute part appended only when non-zero. -/
def formatTimeDifference (minutes : Int) : String :=
  let absMinutes := minutes.natAbs
  let hours := absMinutes / 60
  let mins := absMinutes % 60
  let sign := if minutes < 0 then "-" else "+"
  if mins = 0 then
    sign ++ toString hours ++ " hour" ++ (if hours ≠ 1 then "s" else "")
  else
    sign ++ toString hours ++ " hour" ++ (if hours ≠ 1 then "s" else "") ++
      " " ++ toString mins ++ " minute" ++ (if mins ≠ 1 then "s" else "")

/-- The error wrapper of the catch block of convertTime (index.ts lines
305-310). -/
def wrapConvertError (sourceTimezone targetTimezone msg : String) : String :=
  "Failed to convert time from " ++ sourceTimezone ++ " to " ++
    targetTimezone ++ ": " ++ msg

/-- Resolution of the shared instant (index.ts lines 266-270): a given
string is parsed as UTC when it is non-blank after trimming, otherwise
the current instant is used. -/
def momentInTime (env : DayjsEnv) : Option String → Option Int
  | some t => if jsTrim t = "" then some env.nowMs else env.parseUTC t
  | none => some env.nowMs

/-- JS template interpolation of the optional time argument. -/
def timeShow : Option String → String
  | some t => t
  | none => "undefined"

/-- Source function convertTime (index.ts lines 255-311).  Empty or
whitespace-only zone strings are rejected first; a single instant is
resolved by momentInTime and rejected when invalid; the same instant is
then viewed in both zones, the offset difference in minutes is
target minus source, and both failure signals of the zone conversion
(the library throwing on an invalid zone and the explicit isValid check)
are reported through the wrapped error of the catch block. -/
def convertTime (env : DayjsEnv) (sourceTimezone targetTimezone : String)
    (time : Option String) : Except String ConvertResult :=
  if jsTrim sourceTimezone = "" ∨ jsTrim targetTimezone = "" then
    .error (wrapConvertError sourceTimezone targetTimezone
      "Source and target timezones are required and cannot be empty")
  else
    match momentInTime env time with
    | none =>
        .error (wrapConvertError sourceTimezone targetTimezone
          ("Invalid time value provided: " ++ timeShow time))
    | some ms =>
        match env.zoneOffset sourceTimezone ms, env.zoneOffset targetTimezone ms with
        | some sourceOffsetMinutes, some targetOffsetMinutes =>
            .ok { sourceTime := env.formatZone sourceTimezone ms,
                  targetTime := env.formatZone targetTimezone ms,
                  timeDiff := formatTimeDifference
                    (targetOffsetMinutes - sourceOffsetMinutes) }
        | _, _ =>
            .error (wrapConvertError sourceTimezone targetTimezone
              "Invalid timezone conversion")

/-- Source function getCurrentTime (index.ts lines 166-175). -/
def getCurrentTime (env : DayjsEnv) (format : String) (timezone : Option String) :
    Except String (String × String × String) :=
  let utcStr := env.formatUTCNow format
  let localTimezone := timezone.getD env.guessZone
  match env.formatNowInZone localTimezone format with
  | .ok localStr => .ok (utcStr, localStr, localTimezone)
  | .error e => .error e

/-- Source function getRelativeTime (index.ts lines 180-182). -/
def getRelativeTime (env : DayjsEnv) (time : String) : String :=
  env.fromNow time

/-- Source function getTimestamp (index.ts lines 187-189).  The JS
conditional is on truthiness, so an empty string falls to the
current-time branch; none models a NaN valueOf of an invalid parse. -/
def getTimestamp (env : DayjsEnv) (time : Option String) : Option Int :=
  match time with
  | some t => if t = "" then some env.nowMs else env.parseUTC t
  | none => some env.nowMs

/-- Source function getDaysInMonth (index.ts lines 194-196); the JS
conditional is on truthiness so an empty string means today. -/
def getDaysInMonth (env : DayjsEnv) (date : Option String) : Int :=
  match date with
  | some d => if d = "" then env.daysInMonthToday else env.daysInMonthOfDate d
  | none => env.daysInMonthToday

/-- Source function getWeekOfYear (index.ts lines 201-208). -/
def getWeekOfYear (env : DayjsEnv) (date : Option String) : Int × Int :=
  match date with
  | some d =>
      if d = "" then (env.weekToday, env.isoWeekToday)
      else (env.weekOfDate d, env.isoWeekOfDate d)
  | none => (env.weekToday, env.isoWeekToday)

/-- Source validator checkCurrentTimeArgs (index.ts lines 313-321). -/
def checkCurrentTimeArgs (args : JSVal) : Bool :=
  args.isObjectNonNull && isStringField args "format" &&
    (if hasField args "timezone" then isStringField args "timezone" else true)

/-- Source validator checkRelativeTimeArgs (index.ts lines 323-330). -/
def checkRelativeTimeArgs (args : JSVal) : Bool :=
  args.isObjectNonNull && isStringField args "time"

/-- Source validator checkDaysInMonthArgs (index.ts lines 332-339): the
date field is REQUIRED to be a present string. -/
def checkDaysInMonthArgs (args : JSVal) : Bool :=
  args.isObjectNonNull && isStringField args "date"

/-- Source validator checkTimestampArgs (index.ts lines 341-349). -/
def checkTimestampArgs (args : JSVal) : Bool :=
  match args with
  | .undef => true
  | .null => true
  | .obj _ =>
      if hasField args "time" then isStringField args "time" else true
  | _ => false

/-- Source validator checkConvertTimeArgs (index.ts lines 351-377). -/
def checkConvertTimeArgs (args : JSVal) : Bool :=
  if !args.isObjectNonNull then false
  else if !isStringField args "sourceTimezone" then false
  else if !isStringField args "targetTimezone" then false
  else
    match args.lookupField "time" with
    | none => true
    | some .undef => true
    | some (.str _) => true
    | some _ => false

/-- Source validator checkWeekOfYearArgs (index.ts lines 379-385). -/
def checkWeekOfYearArgs (args : JSVal) : Bool :=
  args.isObjectNonNull &&
    (if hasField args "date" then isStringField args "date" else true)

/-- The validation error message of the dispatcher. -/
def invalidArgsMsg (name : String) : String :=
  "Invalid arguments for tool: [" ++ name ++ "]"

/-- Printing of a timestamp value into the response template; none is
the NaN of an invalid parse. -/
def tsValueText : Option Int → String
  | some n => toString n
  | none => "NaN"

/-- Response text of the get_timestamp branch (index.ts lines 100-105);
the JS conditional on time is on truthiness. -/
def timestampText (time : Option String) (result : Option Int) : String :=
  match time with
  | some t =>
      if t = "" then "The current timestamp is " ++ tsValueText result ++ " ms."
      else "The timestamp of " ++ t ++ " (parsed as UTC) is " ++
        tsValueText result ++ " ms."
  | none => "The current timestamp is " ++ tsValueText result ++ " ms."

/-- Context prefix of the convert_time response (index.ts line 116). -/
def convertTimeContext : Option String → String
  | some t => if jsTrim t = "" then "The current" else "At " ++ t ++ ", the"
  | none => "The current"

/-- Names of the six registered tools. -/
def isKnownTool (name : String) : Bool :=
  name == "current_time" || name == "relative_time" || name == "days_in_month" ||
    name == "get_timestamp" || name == "convert_time" || name == "get_week_year"

/-- The validator the dispatcher applies for each known tool name. -/
def validateArgs (name : String) (args : JSVal) : Bool :=
  if name = "current_time" then checkCurrentTimeArgs args
  else if name = "relative_time" then checkRelativeTimeArgs args
  else if name = "days_in_month" then checkDaysInMonthArgs args
  else if name = "get_timestamp" then checkTimestampArgs args
  else if name = "convert_time" then checkConvertTimeArgs args
  else if name = "get_week_year" then checkWeekOfYearArgs args
  else true

/-- Body of the dispatcher switch (index.ts lines 39-147) before the
catch-all: a thrown error is the error case, a success return is the ok
case carrying the single text content. -/
def handlerBody (env : DayjsEnv) (name : String) (args : JSVal) :
    Except String String :=
  if name = "current_time" then
    if checkCurrentTimeArgs args then
      match getCurrentTime env ((getStrField args "format").getD "")
          (getStrField args "timezone") with
      | .ok r =>
          .ok ("Current UTC time is " ++ r.1 ++ ", and the time in " ++
            r.2.2 ++ " is " ++ r.2.1 ++ ".")
      | .error e => .error e
    else .error (invalidArgsMsg name)
  else if name = "relative_time" then
    if checkRelativeTimeArgs args then
      .ok (getRelativeTime env ((getStrField args "time").getD ""))
    else .error (invalidArgsMsg name)
  else if name = "days_in_month" then
    if checkDaysInMonthArgs args then
      .ok ("The number of days in month is " ++
        toString (getDaysInMonth env (getStrField args "date")) ++ ".")
    else .error (invalidArgsMsg name)
  else if name = "get_timestamp" then
    if checkTimestampArgs args then
      match jsGetTimeProp args with
      | .ok time => .ok (timestampText time (getTimestamp env time))
      | .error e => .error e
    else .error (invalidArgsMsg name)
  else if name = "convert_time" then
    if checkConvertTimeArgs args then
      match convertTime env ((getStrField args "sourceTimezone").getD "")
          ((getStrField args "targetTimezone").getD "")
          (getStrField args "time") with
      | .ok r =>
          .ok (convertTimeContext (getStrField args "time") ++ " time in " ++
            (getStrField args "sourceTimezone").getD "" ++ " is " ++
            r.sourceTime ++ ", and in " ++
            (getStrField args "targetTimezone").getD "" ++ " is " ++
            r.targetTime ++ ". Time difference: " ++ r.timeDiff ++ ".")
      | .error e => .error e
    else .error (invalidArgsMsg name)
  else if name = "get_week_year" then
    if checkWeekOfYearArgs args then
      .ok ("The week of the year is " ++
        toString (getWeekOfYear env (getStrField args "date")).1 ++
        ", and the isoWeek of the year is " ++
        toString (getWeekOfYear env (getStrField args "date")).2 ++ ".")
    else .error (invalidArgsMsg name)
  else .error ("Unknown tool: " ++ name)

/-- The dispatcher (index.ts lines 36-161): the switch body wrapped in
the catch-all that converts every thrown error into a failure
envelope. -/
def handleTool (env : DayjsEnv) (name : String) (args : JSVal) : ToolResult :=
  match handlerBody env name args with
  | .ok t => { success := true, text := t }
  | .error m => { success := false, text := m }

/-- Argument object of a convert_time invocation with both zones as
strings and an optional string time field. -/
def convertArgs (sourceTimezone targetTimezone : String)
    (time : Option String) : JSVal :=
  .obj ([("sourceTimezone", .str sourceTimezone),
         ("targetTimezone", .str targetTimezone)] ++
    (match time with
     | some t => [("time", JSVal.str t)]
     | none => []))

/-- Proleptic Gregorian leap year test. -/
def isLeapYear (y : Nat) : Bool :=
  (y % 4 == 0 && y % 100 != 0) || y % 400 == 0

/-- Days in a month of the Gregorian calendar. -/
def daysInMonthNat (y m : Nat) : Nat :=
  if m = 2 then (if isLeapYear y then 29 else 28)
  else if m = 4 ∨ m = 6 ∨ m = 9 ∨ m = 11 then 30 else 31

/-- Days in a Gregorian year. -/
def daysInYear (y : Nat) : Nat :=
  if isLeapYear y then 366 else 365

/-- Days from 1970-01-01 to the given civil date (date at or after the
epoch). -/
def daysSinceEpoch (y m d : Nat) : Nat :=
  ((List.range (y - 1970)).foldl (fun acc i => acc + daysInYear (1970 + i)) 0) +
    ((List.range (m - 1)).foldl (fun acc i => acc + daysInMonthNat y (i + 1)) 0) +
    (d - 1)

/-- Civil date from a day count since 1970-01-01, by the standard
era-based Gregorian algorithm (constant-depth arithmetic). -/
def civilFromDays (days : Nat) : Nat × Nat × Nat :=
  let z := days + 719468
  let era := z / 146097
  let doe := z % 146097
  let yoe := (doe - doe / 1460 + doe / 36524 - doe / 146097) / 365
  let y := yoe + era * 400
  let doy := doe - (365 * yoe + yoe / 4 - yoe / 100)
  let mp := (5 * doy + 2) / 153
  let d := doy - (153 * mp + 2) / 5 + 1
  let m := if mp < 10 then mp + 3 else mp - 9
  (if m ≤ 2 then y + 1 else y, m, d)

/-- Two-digit zero padding. -/
def pad2 (n : Nat) : String :=
  if n < 10 then "0" ++ toString n else toString n

/-- Four-digit zero padding. -/
def pad4 (n : Nat) : String :=
  if n < 10 then "000" ++ toString n
  else if n < 100 then "00" ++ toString n
  else if n < 1000 then "0" ++ toString n
  else toString n

/-- Format an epoch-millisecond instant (at or after the epoch) with the
pattern YYYY-MM-DD HH:mm:ss. -/
def formatCivilMs (ms : Int) : String :=
  let t := ms.toNat
  let days := t / 86400000
  let rem := t % 86400000
  let c := civilFromDays days
  pad4 c.1 ++ "-" ++ pad2 c.2.1 ++ "-" ++ pad2 c.2.2 ++ " " ++
    pad2 (rem / 3600000) ++ ":" ++ pad2 (rem / 60000 % 60) ++ ":" ++
    pad2 (rem / 1000 % 60)

/-- Decimal digit value of a character. -/
def digitVal (c : Char) : Option Nat :=
  if c.isDigit then some (c.toNat - 48) else none

/-- Parse a fixed group of decimal digits. -/
def parseDigitsAux : List Char → Nat → Option Nat
  | [], acc => some acc
  | c :: rest, acc =>
      match digitVal c with
      | some d => parseDigitsAux rest (acc * 10 + d)
      | none => none

/-- Parse a list of decimal digits to a Nat. -/
def parseDigits (cs : List Char) : Option Nat :=
  parseDigitsAux cs 0

/-- UTC parse of a string of the exact shape YYYY-MM-DDTHH:mm:ss to
epoch milliseconds: the fragment of the dayjs UTC parser the concrete
test environment needs.  Dates outside 1970-2369 and malformed strings
give an invalid result. -/
def parseIsoBasic (s : String) : Option Int :=
  match s.data with
  | [y1, y2, y3, y4, c1, m1, m2, c2, d1, d2, c3, h1, h2, c4, n1, n2, c5, s1, s2] =>
      if c1 = '-' ∧ c2 = '-' ∧ c3 = 'T' ∧ c4 = ':' ∧ c5 = ':' then
        match parseDigits [y1, y2, y3, y4], parseDigits [m1, m2],
            parseDigits [d1, d2], parseDigits [h1, h2], parseDigits [n1, n2],
            parseDigits [s1, s2] with
        | some y, some mo, some da, some ho, some mi, some se =>
            if 1970 ≤ y ∧ y < 2370 ∧ 1 ≤ mo ∧ mo ≤ 12 ∧ 1 ≤ da ∧
                da ≤ daysInMonthNat y mo ∧ ho < 24 ∧ mi < 60 ∧ se < 60 then
              some (Int.ofNat (daysSinceEpoch y mo da * 86400000 +
                ho * 3600000 + mi * 60000 + se * 1000))
            else none
        | _, _, _, _, _, _ => none
      else none
  | _ => none

/-- Fixed UTC offsets in minutes of the zones the concrete environment
knows; Asia/Kolkata and Asia/Kathmandu have had these constant offsets
for all modern instants. -/
def zoneTable : List (String × Int) :=
  [("UTC", 0), ("Asia/Kolkata", 330), ("Asia/Kathmandu", 345)]

/-- Offset lookup in the fixed zone table. -/
def lookupZone : String → Option Int
  | z => zoneTable.lookup z

/-- Concrete environment used for witnesses and counterexamples: the
parser, formatter and zone table above, with the current instant frozen
at 2025-10-17T00:00:02Z (epoch 1760659202000 ms). -/
def testEnv : DayjsEnv where
  parseUTC := parseIsoBasic
  nowMs := 1760659202000
  zoneOffset := fun z _ => lookupZone z
  formatZone := fun z ms =>
    match lookupZone z with
    | some off => formatCivilMs (ms + off * 60000)
    | none => "Invalid Date"
  guessZone := "UTC"
  formatUTCNow := fun _ => formatCivilMs 1760659202000
  formatNowInZone := fun z _ =>
    match lookupZone z with
    | some off => .ok (formatCivilMs (1760659202000 + off * 60000))
    | none => .error ("Invalid time zone specified: " ++ z)
  fromNow := fun _ => "in a few seconds"
  daysInMonthToday := 31
  daysInMonthOfDate := fun d =>
    match parseIsoBasic d with
    | some ms =>
        Int.ofNat (daysInMonthNat (civilFromDays (ms.toNat / 86400000)).1
          (civilFromDays (ms.toNat / 86400000)).2.1)
    | none => 0
  weekToday := 42
  weekOfDate := fun _ => 42
  isoWeekToday := 42
  isoWeekOfDate := fun _ => 42

/-- Rendering of the minute difference as the spec describes it (for the
refinement claim about formatTimeDifference): a sign, the whole hours
floor of the absolute minutes, the minute remainder appended only when
non-zero, and singular hour/minute exactly when the magnitude is 1. -/
def renderedDiffSpec (m : Int) : String :=
  let hours := m.natAbs / 60
  let rem := m.natAbs % 60
  let sign := if m < 0 then "-" else "+"
  let hoursPart := toString hours ++ (if hours = 1 then " hour" else " hours")
  let minutesPart := toString rem ++ (if rem = 1 then " minute" else " minutes")
  if rem = 0 then sign ++ hoursPart else sign ++ hoursPart ++ " " ++ minutesPart

theorem hour_s_lit : (" hour" : String) ++ "s" = " hours" := rfl

theorem minute_s_lit : (" minute" : String) ++ "s" = " minutes" := rfl

theorem hour_s_append (x : String) : " hour" ++ ("s" ++ x) = " hours" ++ x := by
  rw [← String.append_assoc]; rfl

theorem minute_s_append (x : String) : " minute" ++ ("s" ++ x) = " minutes" ++ x := by
  rw [← String.append_assoc]; rfl

theorem plusData : ("+" : String).data = ['+'] := rfl

theorem minusData : ("-" : String).data = ['-'] := rfl

theorem fTD_eq_spec (m : Int) : formatTimeDifference m = renderedDiffSpec m := by
  simp only [formatTimeDifference, renderedDiffSpec]
  by_cases h0 : m.natAbs % 60 = 0
  · by_cases h1 : m.natAbs / 60 = 1 <;>
      simp [h0, h1, String.append_assoc, String.append_empty, hour_s_lit,
        hour_s_append]
  · by_cases h1 : m.natAbs / 60 = 1 <;> by_cases hr1 : m.natAbs % 60 = 1 <;>
      simp [h0, h1, hr1, String.append_assoc, String.append_empty,
        String.empty_append, hour_s_lit, hour_s_append, minute_s_lit,
        minute_s_append]

/-- C2: for every integer minute difference m, the rendered difference
string is a sign followed by the whole hours of the absolute minutes,
with the minute remainder appended only when non-zero and singular
hour/minute exactly when that component is 1; in particular 330 renders
as +5 hours 30 minutes, -300 as -5 hours with no minute suffix, and
-301 as -5 hours 1 minute. -/
theorem c2_formatTimeDifference_renders_as_spec :
    (∀ m : Int, formatTimeDifference m = renderedDiffSpec m) ∧
    formatTimeDifference 330 = "+5 hours 30 minutes" ∧
    formatTimeDifference (-300) = "-5 hours" ∧
    formatTimeDifference (-301) = "-5 hours 1 minute" :=
  ⟨fTD_eq_spec, by decide, by decide, by decide⟩

/-- C10: the sign of the rendered difference is a plus for every
non-negative minute difference and a minus only for strictly negative
ones; a difference of exactly 0 renders as +0 hours, and the hours
component can be 0 under either sign. -/
theorem c10_sign_is_plus_iff_nonneg :
    (∀ m : Int, 0 ≤ m → (formatTimeDifference m).data.head? = some '+') ∧
    (∀ m : Int, m < 0 → (formatTimeDifference m).data.head? = some '-') ∧
    formatTimeDifference 0 = "+0 hours" ∧
    formatTimeDifference 30 = "+0 hours 30 minutes" ∧
    formatTimeDifference (-30) = "-0 hours 30 minutes" := by
  refine ⟨?_, ?_, by decide, by decide, by decide⟩
  · intro m hm
    by_cases h0 : m.natAbs % 60 = 0 <;>
      simp [formatTimeDifference, h0, not_lt.mpr hm, String.data_append,
        plusData, List.append_assoc]
  · intro m hm
    by_cases h0 : m.natAbs % 60 = 0 <;>
      simp [formatTimeDifference, h0, hm, String.data_append, minusData,
        List.append_assoc]

/-- Witness for C10 at concrete inputs: 15 minutes renders with a plus
sign and -15 minutes with a minus sign. -/
theorem c10_sign_is_plus_iff_nonneg_witness :
    (formatTimeDifference 15).data.head? = some '+' ∧
    (formatTimeDifference (-15)).data.head? = some '-' :=
  ⟨c10_sign_is_plus_iff_nonneg.1 15 (by decide),
   c10_sign_is_plus_iff_nonneg.2.1 (-15) (by decide)⟩

/-- C1: for every convert_time call with non-blank zones, a single
instant is resolved by momentInTime (the given string parsed as UTC when
non-blank, else the current instant); both zone-local renderings and
both offsets are views of that same instant ms, the reported difference
is formatTimeDifference of target offset minus source offset, and that
difference is positive exactly when the target offset exceeds the
source offset. -/
theorem c1_convertTime_shared_instant_and_offset_diff :
    ∀ (env : DayjsEnv) (src tgt : String) (time : Option String)
      (ms sourceOff targetOff : Int),
      jsTrim src ≠ "" → jsTrim tgt ≠ "" →
      momentInTime env time = some ms →
      env.zoneOffset src ms = some sourceOff →
      env.zoneOffset tgt ms = some targetOff →
      convertTime env src tgt time =
        Except.ok { sourceTime := env.formatZone src ms,
                    targetTime := env.formatZone tgt ms,
                    timeDiff := formatTimeDifference (targetOff - sourceOff) } ∧
      (0 < targetOff - sourceOff ↔ sourceOff < targetOff) := by
  intro env src tgt time ms sourceOff targetOff hs ht hm hso hto
  refine ⟨?_, by omega⟩
  simp [convertTime, hs, ht, hm, hso, hto]

/-- Witness for C1: the canonical Kolkata to Kathmandu conversion at the
explicit instant 2025-10-17T00:00:00 parsed as UTC, giving both local
views of that one instant and the quarter-hour difference. -/
theorem c1_convertTime_shared_instant_and_offset_diff_witness :
    convertTime testEnv "Asia/Kolkata" "Asia/Kathmandu"
        (some "2025-10-17T00:00:00") =
      Except.ok { sourceTime := "2025-10-17 05:30:00",
                  targetTime := "2025-10-17 05:45:00",
                  timeDiff := "+0 hours 15 minutes" } ∧
    (0 < (345 : Int) - 330 ↔ (330 : Int) < 345) :=
  let h := c1_convertTime_shared_instant_and_offset_diff testEnv "Asia/Kolkata"
    "Asia/Kathmandu" (some "2025-10-17T00:00:00") 1760659200000 330 345
    (by decide) (by decide) (by decide) (by decide) (by decide)
  ⟨h.1.trans rfl, h.2⟩

/-- C3 counterexample: with valid zones, an empty or whitespace-only
instant string does NOT raise an error; the call succeeds using the
current instant (the frozen now of testEnv, 2025-10-17T00:00:02Z). -/
theorem c3_counterexample_blank_instant_succeeds :
    convertTime testEnv "Asia/Kolkata" "Asia/Kathmandu" (some "") =
      Except.ok { sourceTime := "2025-10-17 05:30:02",
                  targetTime := "2025-10-17 05:45:02",
                  timeDiff := "+0 hours 15 minutes" } ∧
    convertTime testEnv "Asia/Kolkata" "Asia/Kathmandu" (some "   ") =
      Except.ok { sourceTime := "2025-10-17 05:30:02",
                  targetTime := "2025-10-17 05:45:02",
                  timeDiff := "+0 hours 15 minutes" } :=
  ⟨rfl, rfl⟩

/-- C3 as amended: an empty or whitespace-only instant string is treated
as absent (the call behaves exactly as a call with no instant, using the
current instant), while a non-blank instant string that does not parse
is rejected with the descriptive wrapped error naming both zones and the
cause, before any offset arithmetic or formatting: the error holds for
every environment regardless of its zoneOffset and formatZone
behaviour. -/
theorem c3_amended_blank_absent_unparsable_rejected :
    (∀ (env : DayjsEnv) (src tgt t : String), jsTrim t = "" →
      convertTime env src tgt (some t) = convertTime env src tgt none) ∧
    (∀ (env : DayjsEnv) (src tgt t : String),
      jsTrim src ≠ "" → jsTrim tgt ≠ "" → jsTrim t ≠ "" →
      env.parseUTC t = none →
      convertTime env src tgt (some t) =
        Except.error (wrapConvertError src tgt
          ("Invalid time value provided: " ++ t))) := by
  constructor
  · intro env src tgt t ht
    simp [convertTime, momentInTime, ht]
  · intro env src tgt t hs htg ht hp
    simp [convertTime, momentInTime, timeShow, hs, htg, ht, hp]

/-- Witness for the amended C3: a whitespace instant behaves as an
absent one, and the unparsable instant garbage is rejected with the
wrapped error. -/
theorem c3_amended_blank_absent_unparsable_rejected_witness :
    convertTime testEnv "Asia/Kolkata" "Asia/Kathmandu" (some " ") =
      convertTime testEnv "Asia/Kolkata" "Asia/Kathmandu" none ∧
    convertTime testEnv "Asia/Kolkata" "Asia/Kathmandu" (some "garbage") =
      Except.error (wrapConvertError "Asia/Kolkata" "Asia/Kathmandu"
        "Invalid time value provided: garbage") :=
  ⟨c3_amended_blank_absent_unparsable_rejected.1 testEnv "Asia/Kolkata"
      "Asia/Kathmandu" " " (by decide),
   (c3_amended_blank_absent_unparsable_rejected.2 testEnv "Asia/Kolkata"
      "Asia/Kathmandu" "garbage" (by decide) (by decide) (by decide)
      (by decide)).trans rfl⟩

/-- C9: convert_time with an explicitly supplied non-blank instant is
deterministic in its explicit inputs: two environments that agree on the
library parse, offset and format functions but have different current
instants (different call-time side effects) give identical results. -/
theorem c9_convertTime_deterministic_in_explicit_inputs :
    ∀ (e1 e2 : DayjsEnv) (src tgt t : String),
      e1.parseUTC = e2.parseUTC → e1.zoneOffset = e2.zoneOffset →
      e1.formatZone = e2.formatZone → jsTrim t ≠ "" →
      convertTime e1 src tgt (some t) = convertTime e2 src tgt (some t) := by
  intro e1 e2 src tgt t hp hz hf ht
  simp [convertTime, momentInTime, ht, hp, hz, hf]

/-- Witness for C9: the same explicit conversion under two environments
whose current instants differ by the full frozen clock gives the same
answer. -/
theorem c9_convertTime_deterministic_witness :
    convertTime testEnv "Asia/Kolkata" "Asia/Kathmandu"
        (some "2025-10-17T00:00:00") =
      convertTime { testEnv with nowMs := 0 } "Asia/Kolkata" "Asia/Kathmandu"
        (some "2025-10-17T00:00:00") :=
  c9_convertTime_deterministic_in_explicit_inputs testEnv
    { testEnv with nowMs := 0 } "Asia/Kolkata" "Asia/Kathmandu"
    "2025-10-17T00:00:00" rfl rfl rfl (by decide)

/-- C4: a convert_time invocation whose source or target zone is empty
or whitespace-only passes structural validation (both fields are
strings) but produces a failure envelope whose text is the wrapped
error interpolating both zone arguments. -/
theorem c4_empty_zone_yields_failure_envelope :
    ∀ (env : DayjsEnv) (src tgt : String) (time : Option String),
      jsTrim src = "" ∨ jsTrim tgt = "" →
      handleTool env "convert_time" (convertArgs src tgt time) =
        { success := false,
          text := wrapConvertError src tgt
            "Source and target timezones are required and cannot be empty" } := by
  intro env src tgt time h
  rcases time with _ | t <;>
    simp [handleTool, handlerBody, convertArgs, checkConvertTimeArgs,
      convertTime, getStrField, JSVal.lookupField, lookupPairs, isStringField,
      JSVal.isObjectNonNull, h]

/-- Witness for C4: an empty source zone gives the failure envelope
naming both zone arguments. -/
theorem c4_empty_zone_yields_failure_envelope_witness :
    handleTool testEnv "convert_time" (convertArgs "" "Asia/Kolkata" none) =
      { success := false,
        text := wrapConvertError "" "Asia/Kolkata"
          "Source and target timezones are required and cannot be empty" } :=
  c4_empty_zone_yields_failure_envelope testEnv "" "Asia/Kolkata" none
    (Or.inl (by decide))

/-- C5: the code behaviour at the failing input of the claim.  The claim
(and the spec table, and the optional-date signature and doc comment of
getDaysInMonth itself) says the date argument of days_in_month is
optional with default today; but the validator checkDaysInMonthArgs
requires a present string date, so an invocation omitting date is
rejected with the validation error instead of returning the day count of
the current month. -/
theorem c5_days_in_month_omitted_date_rejected :
    ∀ env : DayjsEnv,
      checkDaysInMonthArgs (JSVal.obj []) = false ∧
      handleTool env "days_in_month" (JSVal.obj []) =
        { success := false, text := "Invalid arguments for tool: [days_in_month]" } :=
  fun _ => ⟨rfl, rfl⟩

/-- C6: for a registered tool name with arguments its validator rejects,
the dispatcher returns the failure envelope Invalid arguments for tool
interpolating the name, and for any unregistered name it returns the
Unknown tool failure envelope; both conclusions hold for every
environment, so no computation contributes to them. -/
theorem c6_invalid_args_and_unknown_tool :
    ∀ (env : DayjsEnv) (name : String) (args : JSVal),
      (isKnownTool name = true → validateArgs name args = false →
        handleTool env name args =
          { success := false,
            text := "Invalid arguments for tool: [" ++ name ++ "]" }) ∧
      (isKnownTool name = false →
        handleTool env name args =
          { success := false, text := "Unknown tool: " ++ name }) := by
  intro env name args
  constructor
  · intro hk hv
    have h6 : name = "current_time" ∨ name = "relative_time" ∨
        name = "days_in_month" ∨ name = "get_timestamp" ∨
        name = "convert_time" ∨ name = "get_week_year" := by
      simp [isKnownTool] at hk
      tauto
    rcases h6 with h | h | h | h | h | h <;> subst h <;>
      simp [validateArgs] at hv <;>
      simp [handleTool, handlerBody, invalidArgsMsg, hv]
  · intro hu
    have h6 : ¬(name = "current_time") ∧ ¬(name = "relative_time") ∧
        ¬(name = "days_in_month") ∧ ¬(name = "get_timestamp") ∧
        ¬(name = "convert_time") ∧ ¬(name = "get_week_year") := by
      simp [isKnownTool] at hu
      tauto
    obtain ⟨h1, h2, h3, h4, h5, h6⟩ := h6
    simp [handleTool, handlerBody, h1, h2, h3, h4, h5, h6]

/-- Witness for C6: current_time with an empty argument object is
rejected with the invalid-arguments envelope, and a bogus tool name
gets the unknown-tool envelope. -/
theorem c6_invalid_args_and_unknown_tool_witness :
    handleTool testEnv "current_time" (JSVal.obj []) =
      { success := false,
        text := "Invalid arguments for tool: [current_time]" } ∧
    handleTool testEnv "bogus_tool" (JSVal.obj []) =
      { success := false, text := "Unknown tool: bogus_tool" } :=
  ⟨((c6_invalid_args_and_unknown_tool testEnv "current_time"
      (JSVal.obj [])).1 (by decide) (by decide)).trans rfl,
   ((c6_invalid_args_and_unknown_tool testEnv "bogus_tool"
      (JSVal.obj [])).2 (by decide)).trans rfl⟩

/-- C7: every invocation yields exactly one result envelope: the
dispatcher is the total catch-transform of the switch body, a success
envelope carrying exactly the text of a normally returning branch and a
failure envelope carrying exactly the message of a thrown error, so no
error escapes the handler. -/
theorem c7_every_invocation_one_envelope :
    ∀ (env : DayjsEnv) (name : String) (args : JSVal),
      (∃ t, handlerBody env name args = Except.ok t ∧
        handleTool env name args = { success := true, text := t }) ∨
      (∃ m, handlerBody env name args = Except.error m ∧
        handleTool env name args = { success := false, text := m }) := by
  intro env name args
  cases h : handlerBody env name args with
  | ok t => exact Or.inl ⟨t, rfl, by simp [handleTool, h]⟩
  | error m => exact Or.inr ⟨m, rfl, by simp [handleTool, h]⟩

/-- C8: get_timestamp with no time argument (an argument object that
omits the time field) returns the current instant of the environment in
epoch milliseconds (the model of wall-clock call time, exact here), and
with time 2025-10-17T00:00:00 the string is parsed as UTC giving
exactly 1760659200000, both at the computation and at the dispatcher
envelope level.  An invocation whose arguments are absent altogether is
a different case: there index.ts:95 throws reading args.time, which
jsGetTimeProp models. -/
theorem c8_get_timestamp_now_and_explicit :
    (∀ env : DayjsEnv, getTimestamp env none = some env.nowMs) ∧
    getTimestamp testEnv (some "2025-10-17T00:00:00") = some 1760659200000 ∧
    (∀ env : DayjsEnv, handleTool env "get_timestamp" (JSVal.obj []) =
      { success := true,
        text := "The current timestamp is " ++ toString env.nowMs ++ " ms." }) ∧
    handleTool testEnv "get_timestamp"
        (JSVal.obj [("time", JSVal.str "2025-10-17T00:00:00")]) =
      { success := true,
        text := "The timestamp of 2025-10-17T00:00:00 (parsed as UTC) is 1760659200000 ms." } :=
  ⟨fun _ => rfl, by decide, fun _ => rfl, by decide⟩
